import Mathlib

/-!
# Verification of `voxblox_ros/ptcloud_vis.h`

Shallow embedding of the pointcloud / marker visualization core of
`voxblox_ros/include/voxblox_ros/ptcloud_vis.h`, together with proofs of
the specified properties of the generic sparse-grid visitation engine and
of the voxel classification predicates.

Floating-point scalars (`float`/`double`) are embedded as `ℚ`; all
comparisons the predicates perform are order comparisons on exactly
representable values, so the rational embedding is faithful at the level of
the stated properties.
-/

/-- An RGB color with 8-bit channels (`voxblox::Color`; the alpha channel is
never read by this core, so it is omitted).  Modelled from the spec: "Color:
three 8-bit channel values ... compared only by equality" (the definition of
`voxblox::Color` lives outside the analysed header). -/
structure Color where
  r : ℕ
  g : ℕ
  b : ℕ
deriving DecidableEq

/-- A 3-component world-space point (`voxblox::Point`). -/
structure Point where
  x : ℚ
  y : ℚ
  z : ℚ
deriving DecidableEq

/-- A signed-distance voxel (`voxblox::TsdfVoxel`).  Modelled from the spec:
"Signed-distance voxel: `distance` (signed scalar), `weight` (non-negative
accumulation confidence), `color`"; the struct itself is declared outside the
analysed header, with exactly these fields. -/
structure TsdfVoxel where
  distance : ℚ
  weight : ℚ
  color : Color
deriving DecidableEq

/-- A Euclidean-distance voxel (`voxblox::EsdfVoxel`).  Modelled from the
spec: "Euclidean-distance voxel: `distance` (scalar), `observed` (boolean)". -/
structure EsdfVoxel where
  distance : ℚ
  observed : Bool
deriving DecidableEq

/-- One allocated block of the sparse grid.  Modelled from the spec's Field
accessor interface: `Block.voxel_at(linear_index) → Voxel` and
`Block.coordinate_of(linear_index) → Coordinate`
(`Block::getVoxelByLinearIndex` / `Block::computeCoordinatesFromLinearIndex`
are defined outside the analysed header, so the two accessors are abstract
functions of the linear index here). -/
structure Block (V : Type) where
  voxelAt : ℕ → V
  coordAt : ℕ → Point

/-- A sparse layer.  Modelled from the spec's Field accessor interface:
`enumerate_allocated_blocks` composed with `block_at` is represented as the
list of allocated blocks in enumeration order, together with the two grid
constants `voxels_per_side` and `voxel_size` that apply uniformly to every
block. -/
structure Layer (V : Type) where
  voxels_per_side : ℕ
  voxel_size : ℚ
  blocks : List (Block V)

/-- A layer with no allocated blocks. -/
def emptyLayer (V : Type) (vps : ℕ) (vsize : ℚ) : Layer V :=
  { voxels_per_side := vps, voxel_size := vsize, blocks := [] }

/-- A colored pointcloud point (`pcl::PointXYZRGB`, the fields written by
the traversal). -/
structure PointXYZRGB where
  x : ℚ
  y : ℚ
  z : ℚ
  r : ℕ
  g : ℕ
  b : ℕ
deriving DecidableEq

/-- An intensity pointcloud point (`pcl::PointXYZI`, the fields written by
the traversal). -/
structure PointXYZI where
  x : ℚ
  y : ℚ
  z : ℚ
  intensity : ℚ
deriving DecidableEq

/-- A normalized RGBA color (`std_msgs::ColorRGBA`). -/
structure ColorRGBA where
  r : ℚ
  g : ℚ
  b : ℚ
  a : ℚ
deriving DecidableEq

/-- A visualization marker (`visualization_msgs::Marker`, the fields written
by `createOccupancyBlocksFromLayer`; the three equal scale components are
represented by the single value `scale`). -/
structure Marker where
  frame_id : String
  ns : String
  id : ℕ
  type : ℕ
  scale : ℚ
  action : ℕ
  points : List Point
  colors : List ColorRGBA
deriving DecidableEq

/-- `visualization_msgs::Marker::CUBE_LIST`. -/
def CUBE_LIST : ℕ := 6

/-- `visualization_msgs::Marker::ADD`. -/
def MARKER_ADD : ℕ := 0

/-- Modelled from the spec: the rainbow colormap (§4.3) is a deterministic
scalar→Color ramp whose exact shape is an implementation choice
(`voxblox::rainbowColorMap` is defined outside the analysed header); only
its determinism — it is a function — matters to the verified properties. -/
def rainbowColorMap (h : ℚ) : Color :=
  let h' := max 0 (min 1 h)
  { r := (255 * h').floor.toNat
    g := (255 * (1 - h')).floor.toNat
    b := 128 }

/-- Modelled from the spec: conversion of an 8-bit color to the normalized
message color (`voxblox::colorVoxbloxToMsg`, defined in `conversions.h`,
outside the analysed header). -/
def colorVoxbloxToMsg (c : Color) : ColorRGBA :=
  { r := c.r / 255, g := c.g / 255, b := c.b / 255, a := 1 }

/-! ## The visitation engine

A color-mode visualization function `ShouldVisualizeVoxelColorFunctionType`
has C++ type `bool(const VoxelType&, const Point&, Color*)`: it receives a
pointer to the caller's scratch `Color` and may write through it.  It is
embedded as `V → Point → Color → Bool × Color`: the third argument is the
scratch value before the call and the second component of the result is the
scratch value after the call.  Intensity-mode functions are embedded the
same way with a `ℚ` scratch, and boolean-mode functions take no scratch. -/

/-- Loop body of the color-mode traversal (`ptcloud_vis.h` lines 65–79):
reconstruct the coordinate, invoke the visualization function on the voxel
and, if it returns true, push one `PointXYZRGB` built from the coordinate
and the scratch color the call left behind. -/
def colorStep {V : Type} (vis_function : V → Point → Color → Bool × Color)
    (block : Block V) (st : Color × List PointXYZRGB) (linear_index : ℕ) :
    Color × List PointXYZRGB :=
  let coord := block.coordAt linear_index
  let res := vis_function (block.voxelAt linear_index) coord st.1
  if res.1 then
    (res.2, st.2 ++ [{ x := coord.x, y := coord.y, z := coord.z,
                       r := res.2.r, g := res.2.g, b := res.2.b }])
  else
    (res.2, st.2)

/-- `createColorPointcloudFromLayer` (color overload, lines 44–81).
`pointcloud->clear()` discards the accumulator's incoming contents, so the
result is built from the empty list; the scratch `Color color;`
default-constructs to zero and is threaded through every invocation.  The
returned list is the pointcloud's contents when the function returns. -/
def createColorPointcloudFromLayer {V : Type} (layer : Layer V)
    (vis_function : V → Point → Color → Bool × Color)
    (_pointcloud : List PointXYZRGB) : List PointXYZRGB :=
  let vps := layer.voxels_per_side
  let num_voxels_per_block := vps * vps * vps
  (layer.blocks.foldl
    (fun st block =>
      (List.range num_voxels_per_block).foldl (colorStep vis_function block) st)
    (⟨0, 0, 0⟩, [])).2

/-- Loop body of the intensity-mode traversal (lines 105–117). -/
def intensityStep {V : Type} (vis_function : V → Point → ℚ → Bool × ℚ)
    (block : Block V) (st : ℚ × List PointXYZI) (linear_index : ℕ) :
    ℚ × List PointXYZI :=
  let coord := block.coordAt linear_index
  let res := vis_function (block.voxelAt linear_index) coord st.1
  if res.1 then
    (res.2, st.2 ++ [{ x := coord.x, y := coord.y, z := coord.z,
                       intensity := res.2 }])
  else
    (res.2, st.2)

/-- `createColorPointcloudFromLayer` (intensity overload, lines 84–119).
`pointcloud->clear()` discards the incoming contents; the scratch
`double intensity = 0.0;` is threaded through every invocation. -/
def createColorPointcloudFromLayerI {V : Type} (layer : Layer V)
    (vis_function : V → Point → ℚ → Bool × ℚ)
    (_pointcloud : List PointXYZI) : List PointXYZI :=
  let vps := layer.voxels_per_side
  let num_voxels_per_block := vps * vps * vps
  (layer.blocks.foldl
    (fun st block =>
      (List.range num_voxels_per_block).foldl (intensityStep vis_function block) st)
    (0, [])).2

/-- Loop body of the occupancy-mode traversal (lines 148–161): on a passing
voxel push the cube center onto `block_marker.points` and the rainbow color
of `(coord.z - 5) * 10` onto `block_marker.colors`, in the same iteration. -/
def occStep {V : Type} (vis_function : V → Point → Bool) (block : Block V)
    (st : List Point × List ColorRGBA) (linear_index : ℕ) :
    List Point × List ColorRGBA :=
  let coord := block.coordAt linear_index
  if vis_function (block.voxelAt linear_index) coord then
    (st.1 ++ [{ x := coord.x, y := coord.y, z := coord.z }],
     st.2 ++ [colorVoxbloxToMsg (rainbowColorMap ((coord.z - 5) * 10))])
  else
    st

/-- The single `block_marker` built by `createOccupancyBlocksFromLayer`
(lines 133–161): metadata set before the loop, `points`/`colors` filled by
the traversal. -/
def occupancyMarkerOf {V : Type} (layer : Layer V)
    (vis_function : V → Point → Bool) (frame_id : String) : Marker :=
  let vps := layer.voxels_per_side
  let num_voxels_per_block := vps * vps * vps
  let voxel_size := layer.voxel_size
  let filled := layer.blocks.foldl
    (fun st block =>
      (List.range num_voxels_per_block).foldl (occStep vis_function block) st)
    ([], [])
  { frame_id := frame_id
    ns := "occupied_voxels"
    id := 0
    type := CUBE_LIST
    scale := voxel_size
    action := MARKER_ADD
    points := filled.1
    colors := filled.2 }

/-- `createOccupancyBlocksFromLayer` (lines 121–164).  The marker array is
NOT cleared: the one `block_marker` is pushed onto the incoming array at
line 163. -/
def createOccupancyBlocksFromLayer {V : Type} (layer : Layer V)
    (vis_function : V → Point → Bool) (frame_id : String)
    (marker_array : List Marker) : List Marker :=
  marker_array ++ [occupancyMarkerOf layer vis_function frame_id]

/-! ## Null-checked entry points

Each traversal begins with `CHECK_NOTNULL` on the output accumulator
pointer: a null pointer makes the call fail immediately, before anything is
emitted.  The accumulator pointer is embedded as an `Option` of the
accumulator's contents, and the failed call as `none`. -/

/-- Color overload behind its `CHECK_NOTNULL(pointcloud)` (line 49). -/
def createColorPointcloudFromLayerChecked {V : Type} (layer : Layer V)
    (vis_function : V → Point → Color → Bool × Color)
    (pointcloud : Option (List PointXYZRGB)) : Option (List PointXYZRGB) :=
  match pointcloud with
  | none => none
  | some pc => some (createColorPointcloudFromLayer layer vis_function pc)

/-- Intensity overload behind its `CHECK_NOTNULL(pointcloud)` (line 89). -/
def createColorPointcloudFromLayerICheck {V : Type} (layer : Layer V)
    (vis_function : V → Point → ℚ → Bool × ℚ)
    (pointcloud : Option (List PointXYZI)) : Option (List PointXYZI) :=
  match pointcloud with
  | none => none
  | some pc => some (createColorPointcloudFromLayerI layer vis_function pc)

/-- Occupancy traversal behind its `CHECK_NOTNULL(marker_array)`
(line 127). -/
def createOccupancyBlocksFromLayerChecked {V : Type} (layer : Layer V)
    (vis_function : V → Point → Bool) (frame_id : String)
    (marker_array : Option (List Marker)) : Option (List Marker) :=
  match marker_array with
  | none => none
  | some arr => some (createOccupancyBlocksFromLayer layer vis_function frame_id arr)

/-! ## Voxel classification predicates (lines 166–201) -/

/-- `visualizeNearSurfaceTsdfVoxels` (lines 167–174): passes when
`voxel.weight > 0 && std::abs(voxel.distance) < surface_distance`, writing
the voxel's stored color through the pointer on pass. -/
def visualizeNearSurfaceTsdfVoxels (voxel : TsdfVoxel) (_coord : Point)
    (surface_distance : ℚ) (color : Color) : Bool × Color :=
  if voxel.weight > 0 ∧ |voxel.distance| < surface_distance then
    (true, voxel.color)
  else
    (false, color)

/-- `visualizeDistanceIntensityTsdfVoxels` (lines 176–184): passes when
`voxel.weight > 1e-3`, writing `voxel.distance` as the intensity. -/
def visualizeDistanceIntensityTsdfVoxels (voxel : TsdfVoxel) (_coord : Point)
    (intensity : ℚ) : Bool × ℚ :=
  if voxel.weight > 1 / 1000 then
    (true, voxel.distance)
  else
    (false, intensity)

/-- `visualizeDistanceIntensityEsdfVoxels` (lines 186–194): passes when
`voxel.observed`, writing `voxel.distance` as the intensity. -/
def visualizeDistanceIntensityEsdfVoxels (voxel : EsdfVoxel) (_coord : Point)
    (intensity : ℚ) : Bool × ℚ :=
  if voxel.observed then
    (true, voxel.distance)
  else
    (false, intensity)

/-- `visualizeOccupiedTsdfVoxels` (lines 196–201): passes when
`voxel.weight > 1e-3 && voxel.distance <= 0`. -/
def visualizeOccupiedTsdfVoxels (voxel : TsdfVoxel) (_coord : Point) : Bool :=
  if voxel.weight > 1 / 1000 ∧ voxel.distance ≤ 0 then
    true
  else
    false

/-! ## Preset bindings (lines 203–232) -/

/-- `createSurfacePointcloudFromTsdfLayer` (lines 204–211). -/
def createSurfacePointcloudFromTsdfLayer (layer : Layer TsdfVoxel)
    (surface_distance : ℚ) (pointcloud : List PointXYZRGB) :
    List PointXYZRGB :=
  createColorPointcloudFromLayer layer
    (fun v c col => visualizeNearSurfaceTsdfVoxels v c surface_distance col)
    pointcloud

/-- `createDistancePointcloudFromTsdfLayer` (lines 213–218). -/
def createDistancePointcloudFromTsdfLayer (layer : Layer TsdfVoxel)
    (pointcloud : List PointXYZI) : List PointXYZI :=
  createColorPointcloudFromLayerI layer visualizeDistanceIntensityTsdfVoxels
    pointcloud

/-- `createDistancePointcloudFromEsdfLayer` (lines 220–225). -/
def createDistancePointcloudFromEsdfLayer (layer : Layer EsdfVoxel)
    (pointcloud : List PointXYZI) : List PointXYZI :=
  createColorPointcloudFromLayerI layer visualizeDistanceIntensityEsdfVoxels
    pointcloud

/-- `createOccupancyBlocksFromTsdfLayer` (lines 227–232). -/
def createOccupancyBlocksFromTsdfLayer (layer : Layer TsdfVoxel)
    (frame_id : String) (marker_array : List Marker) : List Marker :=
  createOccupancyBlocksFromLayer layer visualizeOccupiedTsdfVoxels frame_id
    marker_array

/-! ## Generic fold/emit machinery

Each traversal is a `foldl` whose state is a scratch value paired with an
append-only output list.  `emitAll` is the corresponding recursive
description of the emitted output, used to reason about the folds. -/

/-- The output emitted by a scratch-threading loop over `l`: at each element
the scratch advances by `next` and `emit` yields the items appended. -/
def emitAll {σ α β : Type _} (next : σ → α → σ) (emit : σ → α → List β) :
    σ → List α → List β
  | _, [] => []
  | s, a :: l => emit s a ++ emitAll next emit (next s a) l

theorem foldl_emitAll {σ α β : Type _} (step : σ × List β → α → σ × List β)
    (next : σ → α → σ) (emit : σ → α → List β)
    (hstep : ∀ s acc a, step (s, acc) a = (next s a, acc ++ emit s a)) :
    ∀ (l : List α) (s : σ) (acc : List β),
      l.foldl step (s, acc) = (l.foldl next s, acc ++ emitAll next emit s l)
  | [], s, acc => by simp [emitAll]
  | a :: l, s, acc => by
    rw [List.foldl_cons, hstep, foldl_emitAll step next emit hstep l]
    simp [emitAll]

theorem emitAll_eq_nil {σ α β : Type _} (next : σ → α → σ)
    (emit : σ → α → List β) (h : ∀ s a, emit s a = []) :
    ∀ (s : σ) (l : List α), emitAll next emit s l = []
  | _, [] => rfl
  | s, a :: l => by
    rw [emitAll, h, emitAll_eq_nil next emit h]
    rfl

theorem emitAll_length_const {σ α β : Type _} (next : σ → α → σ)
    (emit : σ → α → List β) (k : ℕ) (h : ∀ s a, (emit s a).length = k) :
    ∀ (s : σ) (l : List α), (emitAll next emit s l).length = l.length * k
  | _, [] => by simp [emitAll]
  | s, a :: l => by
    rw [emitAll, List.length_append, h, emitAll_length_const next emit k h]
    simp [Nat.succ_mul, Nat.add_comm]

theorem emitAll_of_indep {σ α β : Type _} (next : σ → α → σ)
    (emit : σ → α → List β) (e : α → List β) (h : ∀ s a, emit s a = e a) :
    ∀ (s : σ) (l : List α), emitAll next emit s l = l.flatMap e
  | _, [] => rfl
  | s, a :: l => by
    rw [emitAll, h, emitAll_of_indep next emit e h, List.flatMap_cons]

theorem emitAll_append {σ α β : Type _} (next : σ → α → σ)
    (emit : σ → α → List β) :
    ∀ (l₁ l₂ : List α) (s : σ),
      emitAll next emit s (l₁ ++ l₂)
        = emitAll next emit s l₁ ++ emitAll next emit (l₁.foldl next s) l₂
  | [], l₂, s => by simp [emitAll]
  | a :: l₁, l₂, s => by
    rw [List.cons_append, emitAll, emitAll, emitAll_append next emit l₁ l₂]
    simp

theorem emitAll_map {σ α α' β : Type _} (next : σ → α → σ)
    (emit : σ → α → List β) (g : α' → α) :
    ∀ (s : σ) (l : List α'),
      emitAll next emit s (l.map g)
        = emitAll (fun s a => next s (g a)) (fun s a => emit s (g a)) s l
  | _, [] => rfl
  | s, a :: l => by
    rw [List.map_cons, emitAll, emitAll, emitAll_map next emit g]

theorem emitAll_length_step {σ α β : Type _} (next : σ → α → σ)
    (emit : σ → α → List β) (w : α → ℕ) (h : ∀ s a, (emit s a).length = w a) :
    ∀ (s : σ) (l : List α),
      (emitAll next emit s l).length = (l.map w).sum
  | _, [] => by simp [emitAll]
  | s, a :: l => by
    rw [emitAll, List.length_append, h, emitAll_length_step next emit w h]
    simp

theorem foldl_append_emit {α β : Type _} (g : α → List β) :
    ∀ (l : List α) (acc : List β),
      l.foldl (fun acc a => acc ++ g a) acc = acc ++ l.flatMap g
  | [], acc => by simp
  | a :: l, acc => by
    rw [List.foldl_cons, foldl_append_emit g l, List.flatMap_cons,
      List.append_assoc]

theorem flatMap_toList_eq_filterMap {α β : Type _} (g : α → Option β) :
    ∀ l : List α, (l.flatMap fun a => (g a).toList) = l.filterMap g
  | [] => rfl
  | a :: l => by
    rw [List.flatMap_cons, flatMap_toList_eq_filterMap g l]
    cases h : g a <;> simp [h, List.filterMap_cons]

theorem length_flatMap_congr {α β γ : Type _} (g : α → List β)
    (g' : α → List γ) (h : ∀ a, (g a).length = (g' a).length) :
    ∀ l : List α, (l.flatMap g).length = (l.flatMap g').length
  | [] => rfl
  | a :: l => by
    rw [List.flatMap_cons, List.flatMap_cons, List.length_append,
      List.length_append, h, length_flatMap_congr g g' h l]

theorem length_flatMap_const {α β : Type _} (g : α → List β) (k : ℕ)
    (h : ∀ a, (g a).length = k) :
    ∀ l : List α, (l.flatMap g).length = l.length * k
  | [] => by simp
  | a :: l => by
    rw [List.flatMap_cons, List.length_append, h,
      length_flatMap_const g k h l]
    simp [Nat.succ_mul, Nat.add_comm]

/-! ## Closed forms of the three traversals -/

/-- Scratch-color evolution of one color-mode predicate invocation. -/
def colorNext {V : Type} (f : V → Point → Color → Bool × Color) (b : Block V)
    (s : Color) (lin : ℕ) : Color :=
  (f (b.voxelAt lin) (b.coordAt lin) s).2

/-- Points pushed by one color-mode loop iteration. -/
def colorEmit1 {V : Type} (f : V → Point → Color → Bool × Color) (b : Block V)
    (s : Color) (lin : ℕ) : List PointXYZRGB :=
  let coord := b.coordAt lin
  let res := f (b.voxelAt lin) coord s
  if res.1 then
    [{ x := coord.x, y := coord.y, z := coord.z,
       r := res.2.r, g := res.2.g, b := res.2.b }]
  else []

theorem colorStep_eq {V : Type} (f : V → Point → Color → Bool × Color)
    (b : Block V) (s : Color) (acc : List PointXYZRGB) (lin : ℕ) :
    colorStep f b (s, acc) lin
      = (colorNext f b s lin, acc ++ colorEmit1 f b s lin) := by
  unfold colorStep colorNext colorEmit1
  cases h : (f (b.voxelAt lin) (b.coordAt lin) s).1 <;> simp [h]

/-- Scratch-color evolution across a whole block. -/
def colorBlockNext {V : Type} (f : V → Point → Color → Bool × Color) (n : ℕ)
    (s : Color) (b : Block V) : Color :=
  (List.range n).foldl (colorNext f b) s

/-- Points pushed while traversing a whole block. -/
def colorBlockEmit {V : Type} (f : V → Point → Color → Bool × Color) (n : ℕ)
    (s : Color) (b : Block V) : List PointXYZRGB :=
  emitAll (colorNext f b) (colorEmit1 f b) s (List.range n)

theorem colorBlockFold_eq {V : Type} (f : V → Point → Color → Bool × Color)
    (n : ℕ) (s : Color) (acc : List PointXYZRGB) (b : Block V) :
    (List.range n).foldl (colorStep f b) (s, acc)
      = (colorBlockNext f n s b, acc ++ colorBlockEmit f n s b) :=
  foldl_emitAll (colorStep f b) (colorNext f b) (colorEmit1 f b)
    (fun s acc lin => colorStep_eq f b s acc lin) (List.range n) s acc

theorem createColor_eq {V : Type} (layer : Layer V)
    (f : V → Point → Color → Bool × Color) (pc : List PointXYZRGB) :
    createColorPointcloudFromLayer layer f pc
      = emitAll
          (colorBlockNext f
            (layer.voxels_per_side * layer.voxels_per_side * layer.voxels_per_side))
          (colorBlockEmit f
            (layer.voxels_per_side * layer.voxels_per_side * layer.voxels_per_side))
          ⟨0, 0, 0⟩ layer.blocks := by
  unfold createColorPointcloudFromLayer
  dsimp only
  rw [foldl_emitAll _
    (colorBlockNext f
      (layer.voxels_per_side * layer.voxels_per_side * layer.voxels_per_side))
    (colorBlockEmit f
      (layer.voxels_per_side * layer.voxels_per_side * layer.voxels_per_side))
    (fun s acc b => colorBlockFold_eq f _ s acc b) layer.blocks _ _]
  simp

/-- Scratch-intensity evolution of one intensity-mode invocation. -/
def intensityNext {V : Type} (f : V → Point → ℚ → Bool × ℚ) (b : Block V)
    (s : ℚ) (lin : ℕ) : ℚ :=
  (f (b.voxelAt lin) (b.coordAt lin) s).2

/-- Points pushed by one intensity-mode loop iteration. -/
def intensityEmit1 {V : Type} (f : V → Point → ℚ → Bool × ℚ) (b : Block V)
    (s : ℚ) (lin : ℕ) : List PointXYZI :=
  let coord := b.coordAt lin
  let res := f (b.voxelAt lin) coord s
  if res.1 then
    [{ x := coord.x, y := coord.y, z := coord.z, intensity := res.2 }]
  else []

theorem intensityStep_eq {V : Type} (f : V → Point → ℚ → Bool × ℚ)
    (b : Block V) (s : ℚ) (acc : List PointXYZI) (lin : ℕ) :
    intensityStep f b (s, acc) lin
      = (intensityNext f b s lin, acc ++ intensityEmit1 f b s lin) := by
  unfold intensityStep intensityNext intensityEmit1
  cases h : (f (b.voxelAt lin) (b.coordAt lin) s).1 <;> simp [h]

/-- Scratch-intensity evolution across a whole block. -/
def intensityBlockNext {V : Type} (f : V → Point → ℚ → Bool × ℚ) (n : ℕ)
    (s : ℚ) (b : Block V) : ℚ :=
  (List.range n).foldl (intensityNext f b) s

/-- Points pushed while traversing a whole block. -/
def intensityBlockEmit {V : Type} (f : V → Point → ℚ → Bool × ℚ) (n : ℕ)
    (s : ℚ) (b : Block V) : List PointXYZI :=
  emitAll (intensityNext f b) (intensityEmit1 f b) s (List.range n)

theorem intensityBlockFold_eq {V : Type} (f : V → Point → ℚ → Bool × ℚ)
    (n : ℕ) (s : ℚ) (acc : List PointXYZI) (b : Block V) :
    (List.range n).foldl (intensityStep f b) (s, acc)
      = (intensityBlockNext f n s b, acc ++ intensityBlockEmit f n s b) :=
  foldl_emitAll (intensityStep f b) (intensityNext f b) (intensityEmit1 f b)
    (fun s acc lin => intensityStep_eq f b s acc lin) (List.range n) s acc

theorem createColorI_eq {V : Type} (layer : Layer V)
    (f : V → Point → ℚ → Bool × ℚ) (pc : List PointXYZI) :
    createColorPointcloudFromLayerI layer f pc
      = emitAll
          (intensityBlockNext f
            (layer.voxels_per_side * layer.voxels_per_side * layer.voxels_per_side))
          (intensityBlockEmit f
            (layer.voxels_per_side * layer.voxels_per_side * layer.voxels_per_side))
          0 layer.blocks := by
  unfold createColorPointcloudFromLayerI
  dsimp only
  rw [foldl_emitAll _
    (intensityBlockNext f
      (layer.voxels_per_side * layer.voxels_per_side * layer.voxels_per_side))
    (intensityBlockEmit f
      (layer.voxels_per_side * layer.voxels_per_side * layer.voxels_per_side))
    (fun s acc b => intensityBlockFold_eq f _ s acc b) layer.blocks _ _]
  simp

/-- Cube center pushed by one occupancy-mode loop iteration. -/
def occEmitPt {V : Type} (q : V → Point → Bool) (b : Block V) (lin : ℕ) :
    List Point :=
  let coord := b.coordAt lin
  if q (b.voxelAt lin) coord then
    [{ x := coord.x, y := coord.y, z := coord.z }]
  else []

/-- Color pushed by one occupancy-mode loop iteration. -/
def occEmitColor {V : Type} (q : V → Point → Bool) (b : Block V) (lin : ℕ) :
    List ColorRGBA :=
  let coord := b.coordAt lin
  if q (b.voxelAt lin) coord then
    [colorVoxbloxToMsg (rainbowColorMap ((coord.z - 5) * 10))]
  else []

theorem occStep_eq {V : Type} (q : V → Point → Bool) (b : Block V)
    (pts : List Point) (cols : List ColorRGBA) (lin : ℕ) :
    occStep q b (pts, cols) lin
      = (pts ++ occEmitPt q b lin, cols ++ occEmitColor q b lin) := by
  unfold occStep occEmitPt occEmitColor
  cases h : q (b.voxelAt lin) (b.coordAt lin) <;> simp [h]

theorem occBlockFold_eq {V : Type} (q : V → Point → Bool) (b : Block V) :
    ∀ (l : List ℕ) (pts : List Point) (cols : List ColorRGBA),
      l.foldl (occStep q b) (pts, cols)
        = (pts ++ l.flatMap (occEmitPt q b), cols ++ l.flatMap (occEmitColor q b))
  | [], pts, cols => by simp
  | lin :: l, pts, cols => by
    rw [List.foldl_cons, occStep_eq, occBlockFold_eq q b l]
    simp [List.flatMap_cons, List.append_assoc]

/-- Cube centers contributed by one whole block. -/
def occBlockPts {V : Type} (q : V → Point → Bool) (n : ℕ) (b : Block V) :
    List Point :=
  (List.range n).flatMap (occEmitPt q b)

/-- Colors contributed by one whole block. -/
def occBlockCols {V : Type} (q : V → Point → Bool) (n : ℕ) (b : Block V) :
    List ColorRGBA :=
  (List.range n).flatMap (occEmitColor q b)

theorem occLayerFold_eq {V : Type} (q : V → Point → Bool) (n : ℕ) :
    ∀ (bs : List (Block V)) (pts : List Point) (cols : List ColorRGBA),
      bs.foldl (fun st block => (List.range n).foldl (occStep q block) st)
          (pts, cols)
        = (pts ++ bs.flatMap (occBlockPts q n),
           cols ++ bs.flatMap (occBlockCols q n))
  | [], pts, cols => by simp
  | b :: bs, pts, cols => by
    rw [List.foldl_cons, occBlockFold_eq q b, occLayerFold_eq q n bs]
    simp [List.flatMap_cons, List.append_assoc, occBlockPts, occBlockCols]

theorem occupancyMarkerOf_points {V : Type} (layer : Layer V)
    (q : V → Point → Bool) (frame : String) :
    (occupancyMarkerOf layer q frame).points
      = layer.blocks.flatMap
          (occBlockPts q
            (layer.voxels_per_side * layer.voxels_per_side * layer.voxels_per_side)) := by
  unfold occupancyMarkerOf
  dsimp only
  rw [occLayerFold_eq]
  simp

theorem occupancyMarkerOf_colors {V : Type} (layer : Layer V)
    (q : V → Point → Bool) (frame : String) :
    (occupancyMarkerOf layer q frame).colors
      = layer.blocks.flatMap
          (occBlockCols q
            (layer.voxels_per_side * layer.voxels_per_side * layer.voxels_per_side)) := by
  unfold occupancyMarkerOf
  dsimp only
  rw [occLayerFold_eq]
  simp

/-! ## Pure predicates and the spec-side visit order -/

theorem mul_mul_self_eq_pow_three (n : ℕ) : n * n * n = n ^ 3 := by ring

/-- Lift of a pure color predicate `(voxel, coordinate) → optional Color`
(the spec's §4.2 notion of predicate) to the pointer-writing C++ signature:
on pass write the color and return true; on fail leave the scratch untouched
and return false. -/
def liftColor {V : Type} (p : V → Point → Option Color) :
    V → Point → Color → Bool × Color :=
  fun v c s =>
    match p v c with
    | some col => (true, col)
    | none => (false, s)

/-- Lift of a pure intensity predicate to the pointer-writing signature. -/
def liftIntensity {V : Type} (p : V → Point → Option ℚ) :
    V → Point → ℚ → Bool × ℚ :=
  fun v c s =>
    match p v c with
    | some q => (true, q)
    | none => (false, s)

/-- Written from the spec's words (§3 Invariant, §8): the colored output is,
in block-enumeration order composed with ascending linear-index order over
the `voxels_per_side³` linear indices, exactly one entry per voxel on which
the predicate succeeds, carrying the reconstructed coordinate and the
predicate's color. -/
def specColorOutput {V : Type} (layer : Layer V)
    (p : V → Point → Option Color) : List PointXYZRGB :=
  layer.blocks.flatMap fun b =>
    (List.range (layer.voxels_per_side ^ 3)).filterMap fun lin =>
      (p (b.voxelAt lin) (b.coordAt lin)).map fun col =>
        { x := (b.coordAt lin).x, y := (b.coordAt lin).y,
          z := (b.coordAt lin).z, r := col.r, g := col.g, b := col.b }

/-- Written from the spec's words: the intensity output, one entry per
passing voxel in visit order. -/
def specIntensityOutput {V : Type} (layer : Layer V)
    (p : V → Point → Option ℚ) : List PointXYZI :=
  layer.blocks.flatMap fun b =>
    (List.range (layer.voxels_per_side ^ 3)).filterMap fun lin =>
      (p (b.voxelAt lin) (b.coordAt lin)).map fun q =>
        { x := (b.coordAt lin).x, y := (b.coordAt lin).y,
          z := (b.coordAt lin).z, intensity := q }

/-- Written from the spec's words: the cube centers of the occupancy marker,
one per passing voxel in visit order. -/
def specOccPoints {V : Type} (layer : Layer V) (q : V → Point → Bool) :
    List Point :=
  layer.blocks.flatMap fun b =>
    ((List.range (layer.voxels_per_side ^ 3)).filter fun lin =>
        q (b.voxelAt lin) (b.coordAt lin)).map fun lin =>
      { x := (b.coordAt lin).x, y := (b.coordAt lin).y, z := (b.coordAt lin).z }

theorem flatMap_ite_singleton {α β : Type _} (c : α → Bool) (g : α → β) :
    ∀ l : List α,
      (l.flatMap fun a => if c a then [g a] else []) = (l.filter c).map g
  | [] => rfl
  | a :: l => by
    rw [List.flatMap_cons, flatMap_ite_singleton c g l, List.filter_cons]
    cases h : c a <;> simp [h]

/-! ## The flattened visit sequence (for the shared intensity scratch) -/

/-- The traversal's visit sequence: every (voxel, coordinate) pair, in
block-enumeration order composed with ascending linear-index order. -/
def visitPairs {V : Type} (layer : Layer V) : List (V × Point) :=
  layer.blocks.flatMap fun b =>
    (List.range
        (layer.voxels_per_side * layer.voxels_per_side * layer.voxels_per_side)).map
      fun lin => (b.voxelAt lin, b.coordAt lin)

/-- An intensity visualization function in explicit write form: `(p v c).1`
is the returned boolean, `(p v c).2 = some q` models writing `q` through the
intensity pointer during the call, and `none` models leaving it untouched. -/
def liftIntensityWrite {V : Type} (p : V → Point → Bool × Option ℚ) :
    V → Point → ℚ → Bool × ℚ :=
  fun v c s => ((p v c).1, ((p v c).2).getD s)

/-- Scratch evolution of one explicit-write invocation. -/
def pairNext {V : Type} (p : V → Point → Bool × Option ℚ) (s : ℚ)
    (vc : V × Point) : ℚ :=
  ((p vc.1 vc.2).2).getD s

/-- Points pushed by one explicit-write invocation. -/
def pairEmit {V : Type} (p : V → Point → Bool × Option ℚ) (s : ℚ)
    (vc : V × Point) : List PointXYZI :=
  if (p vc.1 vc.2).1 then
    [{ x := vc.2.x, y := vc.2.y, z := vc.2.z,
       intensity := ((p vc.1 vc.2).2).getD s }]
  else []

theorem emitAll_blocks_eq_pairs {V : Type} (p : V → Point → Bool × Option ℚ)
    (n : ℕ) :
    ∀ (bs : List (Block V)) (s : ℚ),
      emitAll (intensityBlockNext (liftIntensityWrite p) n)
          (intensityBlockEmit (liftIntensityWrite p) n) s bs
        = emitAll (pairNext p) (pairEmit p) s
            (bs.flatMap fun b =>
              (List.range n).map fun lin => (b.voxelAt lin, b.coordAt lin))
  | [], _ => rfl
  | b :: bs, s => by
    rw [List.flatMap_cons, emitAll, emitAll_append, emitAll_map,
      emitAll_blocks_eq_pairs p n bs]
    have hnext : (fun (s : ℚ) (lin : ℕ) =>
        pairNext p s (b.voxelAt lin, b.coordAt lin))
          = intensityNext (liftIntensityWrite p) b := by
      funext s lin
      rfl
    have hemit : (fun (s : ℚ) (lin : ℕ) =>
        pairEmit p s (b.voxelAt lin, b.coordAt lin))
          = intensityEmit1 (liftIntensityWrite p) b := by
      funext s lin
      unfold pairEmit intensityEmit1 liftIntensityWrite
      rfl
    rw [List.foldl_map, hnext, hemit]
    rfl

/-- The intensity traversal, as a single stateful pass over the flattened
visit sequence. -/
theorem intensity_visitPairs {V : Type} (layer : Layer V)
    (p : V → Point → Bool × Option ℚ) (pc : List PointXYZI) :
    createColorPointcloudFromLayerI layer (liftIntensityWrite p) pc
      = emitAll (pairNext p) (pairEmit p) 0 (visitPairs layer) := by
  rw [createColorI_eq, emitAll_blocks_eq_pairs]
  rfl

/-- Number of passing invocations among the given visit pairs. -/
def passCount {V : Type} (p : V → Point → Bool × Option ℚ)
    (l : List (V × Point)) : ℕ :=
  (l.filter fun vc => (p vc.1 vc.2).1).length

/-- The scratch intensity after processing the given visit pairs starting
from the initial `0.0`: the most recently written value, or `0` when no
invocation wrote. -/
def lastWritten {V : Type} (p : V → Point → Bool × Option ℚ)
    (l : List (V × Point)) : ℚ :=
  l.foldl (pairNext p) 0

theorem emitAll_pair_length {V : Type} (p : V → Point → Bool × Option ℚ) :
    ∀ (s : ℚ) (l : List (V × Point)),
      (emitAll (pairNext p) (pairEmit p) s l).length = passCount p l
  | _, [] => rfl
  | s, vc :: l => by
    rw [emitAll, List.length_append, emitAll_pair_length p _ l]
    unfold pairEmit passCount
    cases h : (p vc.1 vc.2).1 <;> simp [h, List.filter_cons, Nat.add_comm]

theorem foldl_pairNext_no_writes {V : Type} (p : V → Point → Bool × Option ℚ) :
    ∀ (l : List (V × Point)), (∀ vc ∈ l, (p vc.1 vc.2).2 = none) →
      ∀ s : ℚ, l.foldl (pairNext p) s = s
  | [], _, _ => rfl
  | vc :: l, h, s => by
    rw [List.foldl_cons]
    have hvc := h vc (List.mem_cons_self vc l)
    rw [foldl_pairNext_no_writes p l (fun u hu => h u (List.mem_cons_of_mem vc hu))]
    unfold pairNext
    rw [hvc]
    rfl

/-! ## Concrete fixtures for counterexamples and witnesses -/

/-- A one-voxel block over voxel payload `ℕ` with a constant payload and a
constant reconstructed coordinate. -/
def natBlock (v : ℕ) (c : Point) : Block ℕ :=
  { voxelAt := fun _ => v, coordAt := fun _ => c }

/-- A block whose payload is the linear index and whose coordinate encodes
(block number, linear index). -/
def idxBlock (k : ℕ) : Block ℕ :=
  { voxelAt := fun lin => lin, coordAt := fun lin => ⟨k, lin, 0⟩ }

/-- One-block test layer, `voxels_per_side = 1`. -/
def testLayer1 : Layer ℕ :=
  { voxels_per_side := 1, voxel_size := 1,
    blocks := [natBlock 0 ⟨0, 0, 0⟩] }

/-- Two-block test layer, `voxels_per_side = 1`. -/
def testLayer2 : Layer ℕ :=
  { voxels_per_side := 1, voxel_size := 1,
    blocks := [natBlock 0 ⟨0, 0, 0⟩, natBlock 1 ⟨1, 0, 0⟩] }

/-- Two-block test layer, `voxels_per_side = 2` (8 voxels per block). -/
def testLayer16 : Layer ℕ :=
  { voxels_per_side := 2, voxel_size := 1,
    blocks := [idxBlock 0, idxBlock 1] }

/-! ## The claims -/

/-- C1 (counterexample): the claim that every traversal mode clears the
supplied accumulator fails for the cuboid-marker mode — with identical
layer, predicate and frame, a call on a marker array that already holds a
marker produces a different output than a call on an empty array, so the
output does depend on the accumulator's prior entries. -/
theorem c1_counterexample :
    createOccupancyBlocksFromLayer (emptyLayer ℕ 1 1) (fun _ _ => false) "map"
        [{ frame_id := "old", ns := "x", id := 3, type := 0, scale := 2,
           action := 0, points := [], colors := [] }]
      ≠ createOccupancyBlocksFromLayer (emptyLayer ℕ 1 1) (fun _ _ => false)
          "map" [] := by
  decide

/-- C1 (amended): the colored-point and intensity-point traversals clear the
supplied accumulator at the start of the call, so their output does not
depend on any entries it held before; the cuboid-marker traversal does not
clear — it appends its single marker to whatever the array already holds. -/
theorem c1_clearing :
    (∀ (V : Type) (layer : Layer V) (f : V → Point → Color → Bool × Color)
        (pc₁ pc₂ : List PointXYZRGB),
        createColorPointcloudFromLayer layer f pc₁
          = createColorPointcloudFromLayer layer f pc₂)
    ∧ (∀ (V : Type) (layer : Layer V) (f : V → Point → ℚ → Bool × ℚ)
        (pc₁ pc₂ : List PointXYZI),
        createColorPointcloudFromLayerI layer f pc₁
          = createColorPointcloudFromLayerI layer f pc₂)
    ∧ (∀ (V : Type) (layer : Layer V) (q : V → Point → Bool) (frame : String)
        (arr : List Marker),
        createOccupancyBlocksFromLayer layer q frame arr
          = arr ++ [occupancyMarkerOf layer q frame]) :=
  ⟨fun _ _ _ _ _ => rfl, fun _ _ _ _ _ => rfl, fun _ _ _ _ _ => rfl⟩

theorem flatMap_nil_of {α β : Type _} (g : α → List β) (h : ∀ a, g a = []) :
    ∀ l : List α, l.flatMap g = []
  | [] => rfl
  | a :: l => by rw [List.flatMap_cons, h, flatMap_nil_of g h l]; rfl

/-- C2 (counterexample): with a predicate that returns false on every voxel,
the marker-array accumulator does not come back empty — the traversal still
appends its one (pointless) marker to the array. -/
theorem c2_counterexample :
    createOccupancyBlocksFromLayer testLayer1 (fun _ _ => false) "map" []
      ≠ [] := by
  decide

/-- C2 (amended): with a predicate that returns false for every voxel, the
two pointcloud traversals produce empty pointclouds; the marker traversal
still appends exactly its one marker to the array, but that marker's points
and colors lists are empty. -/
theorem c2_always_fail_empty :
    (∀ (V : Type) (layer : Layer V) (f : V → Point → Color → Bool × Color)
        (pc : List PointXYZRGB), (∀ v c s, (f v c s).1 = false) →
        createColorPointcloudFromLayer layer f pc = [])
    ∧ (∀ (V : Type) (layer : Layer V) (f : V → Point → ℚ → Bool × ℚ)
        (pc : List PointXYZI), (∀ v c s, (f v c s).1 = false) →
        createColorPointcloudFromLayerI layer f pc = [])
    ∧ (∀ (V : Type) (layer : Layer V) (q : V → Point → Bool) (frame : String)
        (arr : List Marker), (∀ v c, q v c = false) →
        createOccupancyBlocksFromLayer layer q frame arr
            = arr ++ [occupancyMarkerOf layer q frame]
          ∧ (occupancyMarkerOf layer q frame).points = []
          ∧ (occupancyMarkerOf layer q frame).colors = []) := by
  refine ⟨?_, ?_, ?_⟩
  · intro V layer f pc hf
    rw [createColor_eq]
    have h1 : ∀ (b : Block V) (s : Color) (lin : ℕ), colorEmit1 f b s lin = [] := by
      intro b s lin
      simp [colorEmit1, hf]
    have h2 : ∀ (s : Color) (b : Block V),
        colorBlockEmit f
          (layer.voxels_per_side * layer.voxels_per_side * layer.voxels_per_side)
          s b = [] := by
      intro s b
      exact emitAll_eq_nil (colorNext f b) (colorEmit1 f b) (h1 b) s (List.range _)
    exact emitAll_eq_nil _ _ h2 ⟨0, 0, 0⟩ layer.blocks
  · intro V layer f pc hf
    rw [createColorI_eq]
    have h1 : ∀ (b : Block V) (s : ℚ) (lin : ℕ), intensityEmit1 f b s lin = [] := by
      intro b s lin
      simp [intensityEmit1, hf]
    have h2 : ∀ (s : ℚ) (b : Block V),
        intensityBlockEmit f
          (layer.voxels_per_side * layer.voxels_per_side * layer.voxels_per_side)
          s b = [] := by
      intro s b
      exact emitAll_eq_nil (intensityNext f b) (intensityEmit1 f b) (h1 b) s (List.range _)
    exact emitAll_eq_nil _ _ h2 0 layer.blocks
  · intro V layer q frame arr hq
    refine ⟨rfl, ?_, ?_⟩
    · rw [occupancyMarkerOf_points]
      have h1 : ∀ (b : Block V),
          occBlockPts q
            (layer.voxels_per_side * layer.voxels_per_side * layer.voxels_per_side)
            b = [] := by
        intro b
        exact flatMap_nil_of (occEmitPt q b) (fun lin => by simp [occEmitPt, hq])
          (List.range _)
      exact flatMap_nil_of _ h1 layer.blocks
    · rw [occupancyMarkerOf_colors]
      have h1 : ∀ (b : Block V),
          occBlockCols q
            (layer.voxels_per_side * layer.voxels_per_side * layer.voxels_per_side)
            b = [] := by
        intro b
        exact flatMap_nil_of (occEmitColor q b) (fun lin => by simp [occEmitColor, hq])
          (List.range _)
      exact flatMap_nil_of _ h1 layer.blocks

/-- C2 (witness): the amended statement at a concrete one-voxel layer and
the constant-false predicates. -/
theorem c2_witness :
    createColorPointcloudFromLayer testLayer1 (fun _ _ s => (false, s)) [] = []
    ∧ createColorPointcloudFromLayerI testLayer1 (fun _ _ s => (false, s)) [] = []
    ∧ (occupancyMarkerOf testLayer1 (fun _ _ => false) "map").points = [] :=
  ⟨c2_always_fail_empty.1 ℕ testLayer1 _ [] (fun _ _ _ => rfl),
   c2_always_fail_empty.2.1 ℕ testLayer1 _ [] (fun _ _ _ => rfl),
   (c2_always_fail_empty.2.2 ℕ testLayer1 _ "map" [] (fun _ _ => rfl)).2.1⟩

/-- C3: with a predicate that returns true for every voxel, each traversal
emits exactly (number of allocated blocks) · voxels_per_side³ entries —
every allocated voxel is visited exactly once and contributes exactly one
entry (for the marker mode, one cube center in the appended marker). -/
theorem c3_always_pass_count :
    (∀ (V : Type) (layer : Layer V) (f : V → Point → Color → Bool × Color)
        (pc : List PointXYZRGB), (∀ v c s, (f v c s).1 = true) →
        (createColorPointcloudFromLayer layer f pc).length
          = layer.blocks.length * layer.voxels_per_side ^ 3)
    ∧ (∀ (V : Type) (layer : Layer V) (f : V → Point → ℚ → Bool × ℚ)
        (pc : List PointXYZI), (∀ v c s, (f v c s).1 = true) →
        (createColorPointcloudFromLayerI layer f pc).length
          = layer.blocks.length * layer.voxels_per_side ^ 3)
    ∧ (∀ (V : Type) (layer : Layer V) (q : V → Point → Bool) (frame : String),
        (∀ v c, q v c = true) →
        (occupancyMarkerOf layer q frame).points.length
          = layer.blocks.length * layer.voxels_per_side ^ 3) := by
  refine ⟨?_, ?_, ?_⟩
  · intro V layer f pc hf
    rw [createColor_eq, ← mul_mul_self_eq_pow_three]
    have h1 : ∀ (b : Block V) (s : Color) (lin : ℕ),
        (colorEmit1 f b s lin).length = 1 := by
      intro b s lin
      simp [colorEmit1, hf]
    have h2 : ∀ (s : Color) (b : Block V),
        (colorBlockEmit f
          (layer.voxels_per_side * layer.voxels_per_side * layer.voxels_per_side)
          s b).length
          = layer.voxels_per_side * layer.voxels_per_side * layer.voxels_per_side := by
      intro s b
      have h := emitAll_length_const (colorNext f b) (colorEmit1 f b) 1 (h1 b) s
        (List.range
          (layer.voxels_per_side * layer.voxels_per_side * layer.voxels_per_side))
      simpa using h
    exact emitAll_length_const _ _ _ h2 ⟨0, 0, 0⟩ layer.blocks
  · intro V layer f pc hf
    rw [createColorI_eq, ← mul_mul_self_eq_pow_three]
    have h1 : ∀ (b : Block V) (s : ℚ) (lin : ℕ),
        (intensityEmit1 f b s lin).length = 1 := by
      intro b s lin
      simp [intensityEmit1, hf]
    have h2 : ∀ (s : ℚ) (b : Block V),
        (intensityBlockEmit f
          (layer.voxels_per_side * layer.voxels_per_side * layer.voxels_per_side)
          s b).length
          = layer.voxels_per_side * layer.voxels_per_side * layer.voxels_per_side := by
      intro s b
      have h := emitAll_length_const (intensityNext f b) (intensityEmit1 f b) 1 (h1 b) s
        (List.range
          (layer.voxels_per_side * layer.voxels_per_side * layer.voxels_per_side))
      simpa using h
    exact emitAll_length_const _ _ _ h2 0 layer.blocks
  · intro V layer q frame hq
    rw [occupancyMarkerOf_points, ← mul_mul_self_eq_pow_three]
    have h2 : ∀ (b : Block V),
        (occBlockPts q
          (layer.voxels_per_side * layer.voxels_per_side * layer.voxels_per_side)
          b).length
          = layer.voxels_per_side * layer.voxels_per_side * layer.voxels_per_side := by
      intro b
      show ((List.range
          (layer.voxels_per_side * layer.voxels_per_side * layer.voxels_per_side)).flatMap
            (occEmitPt q b)).length = _
      rw [length_flatMap_const (occEmitPt q b) 1
        (fun lin => by simp [occEmitPt, hq])]
      simp
    exact length_flatMap_const _ _ h2 layer.blocks

/-- C3 (witness): a layer with two allocated blocks and `voxels_per_side =
2` yields exactly 2 · 2³ = 16 entries in every mode under constant-true
predicates. -/
theorem c3_witness :
    (createColorPointcloudFromLayer testLayer16 (fun _ _ s => (true, s)) []).length = 16
    ∧ (createColorPointcloudFromLayerI testLayer16 (fun _ _ s => (true, s)) []).length = 16
    ∧ (occupancyMarkerOf testLayer16 (fun _ _ => true) "map").points.length = 16 :=
  ⟨(c3_always_pass_count.1 ℕ testLayer16 _ [] (fun _ _ _ => rfl)).trans (by decide),
   (c3_always_pass_count.2.1 ℕ testLayer16 _ [] (fun _ _ _ => rfl)).trans (by decide),
   (c3_always_pass_count.2.2 ℕ testLayer16 _ "map" (fun _ _ => rfl)).trans (by decide)⟩

/-- C4: the near-surface predicate passes iff `weight > 0` and
`|distance| < surface_threshold`, and on pass it emits the voxel's stored
color; a voxel with weight 0 never passes regardless of distance; a voxel
with weight 1 and distance 0 passes for threshold 1/10; a voxel with
distance 1/5 fails for threshold 1/10. -/
theorem c4_near_surface_predicate :
    ∀ (v : TsdfVoxel) (coord : Point) (thr : ℚ) (s : Color),
      visualizeNearSurfaceTsdfVoxels v coord thr s
          = (if v.weight > 0 ∧ |v.distance| < thr then (true, v.color)
             else (false, s))
      ∧ ((visualizeNearSurfaceTsdfVoxels v coord thr s).1 = true
          ↔ v.weight > 0 ∧ |v.distance| < thr)
      ∧ (∀ (d : ℚ) (col : Color) (thr' : ℚ),
          (visualizeNearSurfaceTsdfVoxels ⟨d, 0, col⟩ coord thr' s).1 = false)
      ∧ visualizeNearSurfaceTsdfVoxels ⟨0, 1, v.color⟩ coord (1 / 10) s
          = (true, v.color)
      ∧ (∀ (w : ℚ) (col : Color),
          (visualizeNearSurfaceTsdfVoxels ⟨1 / 5, w, col⟩ coord (1 / 10) s).1
            = false) := by
  intro v coord thr s
  refine ⟨rfl, ?_, ?_, ?_, ?_⟩
  · by_cases h : v.weight > 0 ∧ |v.distance| < thr <;>
      simp [visualizeNearSurfaceTsdfVoxels, h]
  · intro d col thr'
    simp [visualizeNearSurfaceTsdfVoxels]
  · unfold visualizeNearSurfaceTsdfVoxels
    norm_num
  · intro w col
    have habs : |(1 / 5 : ℚ)| = 1 / 5 := abs_of_pos (by norm_num)
    unfold visualizeNearSurfaceTsdfVoxels
    dsimp only
    rw [habs]
    norm_num

/-- C5: the occupied predicate passes iff `weight > 1e-3` and
`distance ≤ 0`; weight 1/100 with distance −1/2 passes, weight 1/100 with
distance 1/2 fails, and weight 1/2000 with distance −1/2 fails. -/
theorem c5_occupied_predicate :
    ∀ (v : TsdfVoxel) (coord : Point),
      (visualizeOccupiedTsdfVoxels v coord = true
          ↔ v.weight > 1 / 1000 ∧ v.distance ≤ 0)
      ∧ visualizeOccupiedTsdfVoxels ⟨-(1 / 2), 1 / 100, ⟨0, 0, 0⟩⟩ coord = true
      ∧ visualizeOccupiedTsdfVoxels ⟨1 / 2, 1 / 100, ⟨0, 0, 0⟩⟩ coord = false
      ∧ visualizeOccupiedTsdfVoxels ⟨-(1 / 2), 1 / 2000, ⟨0, 0, 0⟩⟩ coord
          = false := by
  intro v coord
  refine ⟨?_, ?_, ?_, ?_⟩
  · by_cases h : v.weight > 1 / 1000 ∧ v.distance ≤ 0 <;>
      simp [visualizeOccupiedTsdfVoxels, h]
  · unfold visualizeOccupiedTsdfVoxels
    norm_num
  · unfold visualizeOccupiedTsdfVoxels
    norm_num
  · unfold visualizeOccupiedTsdfVoxels
    norm_num

/-- C6 (counterexample): the claim that with a non-null accumulator an
empty Field yields an empty accumulator fails for the cuboid-marker mode —
on an empty layer the checked call still appends its one marker, so the
returned accumulator is not empty. -/
theorem c6_counterexample :
    createOccupancyBlocksFromLayerChecked (emptyLayer ℕ 1 1)
        (fun _ _ => false) "world" (some []) ≠ some [] := by
  decide

/-- C6 (amended): for every traversal mode a null accumulator reference
makes the call fail immediately with nothing emitted; with a non-null
accumulator the traversal never fails; an empty Field yields an empty
pointcloud in the two point modes, while the cuboid-marker mode appends its
single (empty) marker to the incoming array. -/
theorem c6_null_check_and_empty_field :
    (∀ (V : Type) (layer : Layer V) (f : V → Point → Color → Bool × Color),
        createColorPointcloudFromLayerChecked layer f none = none)
    ∧ (∀ (V : Type) (layer : Layer V) (f : V → Point → ℚ → Bool × ℚ),
        createColorPointcloudFromLayerICheck layer f none = none)
    ∧ (∀ (V : Type) (layer : Layer V) (q : V → Point → Bool) (frame : String),
        createOccupancyBlocksFromLayerChecked layer q frame none = none)
    ∧ (∀ (V : Type) (layer : Layer V) (f : V → Point → Color → Bool × Color)
        (pc : List PointXYZRGB),
        (createColorPointcloudFromLayerChecked layer f (some pc)).isSome = true)
    ∧ (∀ (V : Type) (layer : Layer V) (f : V → Point → ℚ → Bool × ℚ)
        (pc : List PointXYZI),
        (createColorPointcloudFromLayerICheck layer f (some pc)).isSome = true)
    ∧ (∀ (V : Type) (layer : Layer V) (q : V → Point → Bool) (frame : String)
        (arr : List Marker),
        (createOccupancyBlocksFromLayerChecked layer q frame (some arr)).isSome
          = true)
    ∧ (∀ (V : Type) (vps : ℕ) (vsize : ℚ)
        (f : V → Point → Color → Bool × Color) (pc : List PointXYZRGB),
        createColorPointcloudFromLayerChecked (emptyLayer V vps vsize) f
            (some pc)
          = some [])
    ∧ (∀ (V : Type) (vps : ℕ) (vsize : ℚ) (f : V → Point → ℚ → Bool × ℚ)
        (pc : List PointXYZI),
        createColorPointcloudFromLayerICheck (emptyLayer V vps vsize) f
            (some pc)
          = some [])
    ∧ (∀ (V : Type) (vps : ℕ) (vsize : ℚ) (q : V → Point → Bool)
        (frame : String) (arr : List Marker),
        createOccupancyBlocksFromLayerChecked (emptyLayer V vps vsize) q frame
            (some arr)
          = some (arr ++ [occupancyMarkerOf (emptyLayer V vps vsize) q frame])) :=
  ⟨fun _ _ _ => rfl, fun _ _ _ => rfl, fun _ _ _ _ => rfl,
   fun _ _ _ _ => rfl, fun _ _ _ _ => rfl, fun _ _ _ _ _ => rfl,
   fun _ _ _ _ _ => rfl, fun _ _ _ _ _ => rfl, fun _ _ _ _ _ _ => rfl⟩

/-- C7: for pure predicates (the spec's §4.2 notion), each emitted point or
cuboid corresponds to exactly one voxel on which the predicate succeeded,
and the entries appear in block-enumeration order composed with ascending
linear-index order: each traversal's output equals the spec-side
filter of the visit sequence. -/
theorem c7_order_and_correspondence :
    (∀ (V : Type) (layer : Layer V) (p : V → Point → Option Color)
        (pc : List PointXYZRGB),
        createColorPointcloudFromLayer layer (liftColor p) pc
          = specColorOutput layer p)
    ∧ (∀ (V : Type) (layer : Layer V) (p : V → Point → Option ℚ)
        (pc : List PointXYZI),
        createColorPointcloudFromLayerI layer (liftIntensity p) pc
          = specIntensityOutput layer p)
    ∧ (∀ (V : Type) (layer : Layer V) (q : V → Point → Bool) (frame : String),
        (occupancyMarkerOf layer q frame).points = specOccPoints layer q) := by
  refine ⟨?_, ?_, ?_⟩
  · intro V layer p pc
    rw [createColor_eq]
    have h1 : ∀ (b : Block V) (s : Color) (lin : ℕ),
        colorEmit1 (liftColor p) b s lin
          = ((p (b.voxelAt lin) (b.coordAt lin)).map fun col =>
              ({ x := (b.coordAt lin).x, y := (b.coordAt lin).y,
                 z := (b.coordAt lin).z, r := col.r, g := col.g, b := col.b }
                : PointXYZRGB)).toList := by
      intro b s lin
      cases hp : p (b.voxelAt lin) (b.coordAt lin) <;>
        simp [colorEmit1, liftColor, hp]
    have h2 : ∀ (s : Color) (b : Block V),
        colorBlockEmit (liftColor p)
            (layer.voxels_per_side * layer.voxels_per_side * layer.voxels_per_side)
            s b
          = (List.range
              (layer.voxels_per_side * layer.voxels_per_side
                * layer.voxels_per_side)).filterMap
              fun lin => (p (b.voxelAt lin) (b.coordAt lin)).map fun col =>
                ({ x := (b.coordAt lin).x, y := (b.coordAt lin).y,
                   z := (b.coordAt lin).z, r := col.r, g := col.g, b := col.b }
                  : PointXYZRGB) := by
      intro s b
      have h := emitAll_of_indep (colorNext (liftColor p) b)
        (colorEmit1 (liftColor p) b) _ (h1 b) s
        (List.range
          (layer.voxels_per_side * layer.voxels_per_side * layer.voxels_per_side))
      exact h.trans (flatMap_toList_eq_filterMap _ _)
    have h3 := emitAll_of_indep
      (colorBlockNext (liftColor p)
        (layer.voxels_per_side * layer.voxels_per_side * layer.voxels_per_side))
      (colorBlockEmit (liftColor p)
        (layer.voxels_per_side * layer.voxels_per_side * layer.voxels_per_side))
      _ h2 (⟨0, 0, 0⟩ : Color) layer.blocks
    rw [h3]
    simp only [specColorOutput, mul_mul_self_eq_pow_three]
  · intro V layer p pc
    rw [createColorI_eq]
    have h1 : ∀ (b : Block V) (s : ℚ) (lin : ℕ),
        intensityEmit1 (liftIntensity p) b s lin
          = ((p (b.voxelAt lin) (b.coordAt lin)).map fun q =>
              ({ x := (b.coordAt lin).x, y := (b.coordAt lin).y,
                 z := (b.coordAt lin).z, intensity := q } : PointXYZI)).toList := by
      intro b s lin
      cases hp : p (b.voxelAt lin) (b.coordAt lin) <;>
        simp [intensityEmit1, liftIntensity, hp]
    have h2 : ∀ (s : ℚ) (b : Block V),
        intensityBlockEmit (liftIntensity p)
            (layer.voxels_per_side * layer.voxels_per_side * layer.voxels_per_side)
            s b
          = (List.range
              (layer.voxels_per_side * layer.voxels_per_side
                * layer.voxels_per_side)).filterMap
              fun lin => (p (b.voxelAt lin) (b.coordAt lin)).map fun q =>
                ({ x := (b.coordAt lin).x, y := (b.coordAt lin).y,
                   z := (b.coordAt lin).z, intensity := q } : PointXYZI) := by
      intro s b
      have h := emitAll_of_indep (intensityNext (liftIntensity p) b)
        (intensityEmit1 (liftIntensity p) b) _ (h1 b) s
        (List.range
          (layer.voxels_per_side * layer.voxels_per_side * layer.voxels_per_side))
      exact h.trans (flatMap_toList_eq_filterMap _ _)
    have h3 := emitAll_of_indep
      (intensityBlockNext (liftIntensity p)
        (layer.voxels_per_side * layer.voxels_per_side * layer.voxels_per_side))
      (intensityBlockEmit (liftIntensity p)
        (layer.voxels_per_side * layer.voxels_per_side * layer.voxels_per_side))
      _ h2 (0 : ℚ) layer.blocks
    rw [h3]
    simp only [specIntensityOutput, mul_mul_self_eq_pow_three]
  · intro V layer q frame
    rw [occupancyMarkerOf_points]
    have h1 : ∀ b : Block V,
        occBlockPts q
            (layer.voxels_per_side * layer.voxels_per_side * layer.voxels_per_side)
            b
          = ((List.range
              (layer.voxels_per_side * layer.voxels_per_side
                * layer.voxels_per_side)).filter
              fun lin => q (b.voxelAt lin) (b.coordAt lin)).map fun lin =>
              ({ x := (b.coordAt lin).x, y := (b.coordAt lin).y,
                 z := (b.coordAt lin).z } : Point) := by
      intro b
      exact flatMap_ite_singleton (fun lin => q (b.voxelAt lin) (b.coordAt lin))
        (fun lin => ({ x := (b.coordAt lin).x, y := (b.coordAt lin).y,
                       z := (b.coordAt lin).z } : Point))
        (List.range
          (layer.voxels_per_side * layer.voxels_per_side * layer.voxels_per_side))
    rw [funext h1]
    simp only [specOccPoints, mul_mul_self_eq_pow_three]

/-- C8: every call of the marker traversal appends exactly one marker to
the supplied marker array, leaves the incoming markers unchanged as a
prefix, and a repeated call accumulates one more marker — for every layer
and predicate, including a constant-false predicate and an empty layer. -/
theorem c8_marker_append :
    ∀ (V : Type) (layer : Layer V) (q : V → Point → Bool) (frame : String)
      (arr : List Marker),
      (createOccupancyBlocksFromLayer layer q frame arr).length = arr.length + 1
      ∧ (createOccupancyBlocksFromLayer layer q frame arr).take arr.length = arr
      ∧ (createOccupancyBlocksFromLayer layer q frame
            (createOccupancyBlocksFromLayer layer q frame arr)).length
          = arr.length + 2 := by
  intro V layer q frame arr
  refine ⟨by simp [createOccupancyBlocksFromLayer], ?_, ?_⟩
  · rw [createOccupancyBlocksFromLayer]
    exact List.take_left arr _
  · simp [createOccupancyBlocksFromLayer]

/-- C9: the marker produced by `createOccupancyBlocksFromLayer` (the one it
appends to the array) has points and colors lists of equal length: each
passing voxel appends exactly one cube center and one color in the same
loop iteration. -/
theorem c9_points_colors_length :
    ∀ (V : Type) (layer : Layer V) (q : V → Point → Bool) (frame : String)
      (arr : List Marker),
      createOccupancyBlocksFromLayer layer q frame arr
          = arr ++ [occupancyMarkerOf layer q frame]
      ∧ (occupancyMarkerOf layer q frame).points.length
          = (occupancyMarkerOf layer q frame).colors.length := by
  intro V layer q frame arr
  refine ⟨rfl, ?_⟩
  rw [occupancyMarkerOf_points, occupancyMarkerOf_colors]
  exact length_flatMap_congr
    (occBlockPts q
      (layer.voxels_per_side * layer.voxels_per_side * layer.voxels_per_side))
    (occBlockCols q
      (layer.voxels_per_side * layer.voxels_per_side * layer.voxels_per_side))
    (fun b => length_flatMap_congr (occEmitPt q b) (occEmitColor q b)
      (fun lin => by
        unfold occEmitPt occEmitColor
        cases h : q (b.voxelAt lin) (b.coordAt lin) <;> simp [h])
      (List.range _))
    layer.blocks

/-- C10: in intensity mode one scratch variable, initialized to 0.0, is
shared across all predicate invocations of a traversal.  For a predicate in
explicit write form that writes only when it passes, if the invocation at a
given position of the visit sequence passes without writing, the point it
appends carries `lastWritten p pre` — which is 0 when no earlier invocation
wrote, and otherwise the value written by the most recent earlier (passing)
writer. -/
theorem c10_intensity_scratch {V : Type} (layer : Layer V)
    (p : V → Point → Bool × Option ℚ) (pc : List PointXYZI)
    (pre post : List (V × Point)) (v : V) (c : Point)
    (hsplit : visitPairs layer = pre ++ (v, c) :: post)
    (hvc : p v c = (true, none))
    (hw : ∀ (u : V) (d : Point), ((p u d).2).isSome = true → (p u d).1 = true) :
    (createColorPointcloudFromLayerI layer (liftIntensityWrite p)
          pc)[passCount p pre]?
        = some { x := c.x, y := c.y, z := c.z, intensity := lastWritten p pre }
      ∧ ((∀ u ∈ pre, (p u.1 u.2).2 = none) → lastWritten p pre = 0)
      ∧ (∀ (pre₁ : List (V × Point)) (w : V) (cw : Point)
          (pre₂ : List (V × Point)) (q : ℚ),
          pre = pre₁ ++ (w, cw) :: pre₂ → (p w cw).2 = some q →
          (∀ u ∈ pre₂, (p u.1 u.2).2 = none) →
          lastWritten p pre = q ∧ (p w cw).1 = true) := by
  refine ⟨?_, ?_, ?_⟩
  · rw [intensity_visitPairs, hsplit, emitAll_append]
    have hfold : pre.foldl (pairNext p) 0 = lastWritten p pre := rfl
    rw [hfold]
    simp only [emitAll]
    have hemit : pairEmit p (lastWritten p pre) (v, c)
        = [{ x := c.x, y := c.y, z := c.z, intensity := lastWritten p pre }] := by
      simp [pairEmit, hvc]
    rw [hemit]
    have hlen : passCount p pre
        = (emitAll (pairNext p) (pairEmit p) 0 pre).length :=
      (emitAll_pair_length p 0 pre).symm
    rw [hlen, List.getElem?_append_right (Nat.le_refl _)]
    simp
  · intro hnone
    exact foldl_pairNext_no_writes p pre hnone 0
  · intro pre₁ w cw pre₂ q hpre hwq hnone
    constructor
    · unfold lastWritten
      rw [hpre, List.foldl_append, List.foldl_cons,
        foldl_pairNext_no_writes p pre₂ hnone]
      unfold pairNext
      rw [hwq]
      rfl
    · exact hw w cw (by rw [hwq]; rfl)

/-- C10 (witness): a two-voxel layer whose first voxel passes and writes 5
and whose second voxel passes without writing; the second emitted point
carries intensity 5, the value written by the most recent earlier passing
voxel. -/
theorem c10_witness :
    (createColorPointcloudFromLayerI testLayer2
        (liftIntensityWrite fun v _ =>
          (true, if v = 0 then some (5 : ℚ) else none)) [])[1]?
      = some { x := 1, y := 0, z := 0, intensity := 5 } := by
  have h := (c10_intensity_scratch testLayer2
      (fun v _ => (true, if v = 0 then some (5 : ℚ) else none)) []
      [((0 : ℕ), ({ x := 0, y := 0, z := 0 } : Point))] []
      1 { x := 1, y := 0, z := 0 }
      (by decide) (by decide) (fun u d _ => rfl)).1
  have e1 : passCount (fun (v : ℕ) (_ : Point) =>
      (true, if v = 0 then some (5 : ℚ) else none))
      [((0 : ℕ), ({ x := 0, y := 0, z := 0 } : Point))] = 1 := by decide
  have e2 : lastWritten (fun (v : ℕ) (_ : Point) =>
      (true, if v = 0 then some (5 : ℚ) else none))
      [((0 : ℕ), ({ x := 0, y := 0, z := 0 } : Point))] = 5 := by decide
  rw [e1, e2] at h
  exact h
